import Mathlib

/-!
Verification of the QR-scan / song-catalog page: a shallow embedding of
the identifier extraction, response normalization, network-call dispatch
and scanner state machine found in `src/pages/index.js`,
`src/components/QrScanner.js` and the unnamed scanner variant.

JavaScript strings are modelled as Lean `String` / `List Char`; `null` and
`undefined` inputs are modelled with `Option`; JS truthiness on strings
(`""` is falsy) is made explicit at each use site.
-/

namespace AppHit

/-- Maximal run of decimal digits at the front of the list — the greedy
capture of `\d+` starting at this position. -/
def digitRun : List Char → List Char
  | [] => []
  | c :: cs => if c.isDigit then c :: digitRun cs else []

/-- True when the list starts with a decimal digit, i.e. `\d+` can begin
matching here. -/
def digitHead : List Char → Bool
  | [] => false
  | c :: _ => c.isDigit

/-- Match the regex `[?&]i=(\d+)` anchored at the head of the list,
returning the capture group. -/
def matchIParamAt : List Char → Option (List Char)
  | a :: b :: c :: rest =>
    if (a = '?' ∨ a = '&') ∧ b = 'i' ∧ c = '=' ∧ digitHead rest = true
    then some (digitRun rest) else none
  | _ => none

/-- Match the regex `/id(\d+)` anchored at the head of the list,
returning the capture group. -/
def matchIdPathAt : List Char → Option (List Char)
  | a :: b :: c :: rest =>
    if a = '/' ∧ b = 'i' ∧ c = 'd' ∧ digitHead rest = true
    then some (digitRun rest) else none
  | _ => none

/-- Unanchored JS regex search: try the anchored matcher at each position
from left to right and return the first capture. -/
def scanMatch (m : List Char → Option (List Char)) : List Char → Option (List Char)
  | [] => none
  | c :: rest =>
    match m (c :: rest) with
    | some r => some r
    | none => scanMatch m rest

/-- Match the anchored regex `^(\d{6,})$` against the whole list. -/
def matchNumericFull (l : List Char) : Option (List Char) :=
  if 6 ≤ l.length ∧ l.all Char.isDigit = true then some l else none

/-- `extractAppleTrackId` from `src/pages/index.js`: falsy input (null,
undefined, empty string) gives null; otherwise the first regex of
`[?&]i=(\d+)`, `/id(\d+)`, `^(\d{6,})$` that matches yields its capture. -/
def extractAppleTrackId : Option String → Option String
  | none => none
  | some t =>
    if t = "" then none
    else
      match scanMatch matchIParamAt t.data with
      | some r => some (String.mk r)
      | none =>
        match scanMatch matchIdPathAt t.data with
        | some r => some (String.mk r)
        | none => (matchNumericFull t.data).map String.mk

/-- Claim C1 as worded: the third shape accepts every string that is
entirely numeric, with no lower bound on its length. -/
def extractClaimC1 : Option String → Option String
  | none => none
  | some t =>
    if t = "" then none
    else
      match scanMatch matchIParamAt t.data with
      | some r => some (String.mk r)
      | none =>
        match scanMatch matchIdPathAt t.data with
        | some r => some (String.mk r)
        | none =>
          if t.data.all Char.isDigit = true then some (String.mk t.data) else none

/-- Claim C1 amended: the entirely-numeric shape additionally requires at
least six digits, as the source regex `^(\d{6,})$` does. -/
def extractClaimC1Amended : Option String → Option String
  | none => none
  | some t =>
    if t = "" then none
    else
      match scanMatch matchIParamAt t.data with
      | some r => some (String.mk r)
      | none =>
        match scanMatch matchIdPathAt t.data with
        | some r => some (String.mk r)
        | none =>
          if 6 ≤ t.data.length ∧ t.data.all Char.isDigit = true
          then some (String.mk t.data) else none

theorem matchNumericFull_map (l : List Char) :
    (matchNumericFull l).map String.mk =
      if 6 ≤ l.length ∧ l.all Char.isDigit = true then some (String.mk l) else none := by
  unfold matchNumericFull
  split <;> rfl

theorem isDigit_ne_mark (c : Char) (h : c.isDigit = true) : ¬ (c = '?' ∨ c = '&') := by
  rintro (rfl | rfl) <;> exact absurd h (by decide)

theorem isDigit_ne_slash (c : Char) (h : c.isDigit = true) : c ≠ '/' := by
  rintro rfl
  exact absurd h (by decide)

theorem scanIParam_all_digits (l : List Char) (h : l.all Char.isDigit = true) :
    scanMatch matchIParamAt l = none := by
  induction l with
  | nil => rfl
  | cons c cs ih =>
    rw [List.all_cons, Bool.and_eq_true] at h
    have hm : matchIParamAt (c :: cs) = none := by
      rcases cs with _ | ⟨b, _ | ⟨d, cs3⟩⟩
      · rfl
      · rfl
      · simp only [matchIParamAt]
        rw [if_neg]
        intro hc
        exact isDigit_ne_mark c h.1 hc.1
    simp only [scanMatch, hm]
    exact ih h.2

theorem scanIdPath_all_digits (l : List Char) (h : l.all Char.isDigit = true) :
    scanMatch matchIdPathAt l = none := by
  induction l with
  | nil => rfl
  | cons c cs ih =>
    rw [List.all_cons, Bool.and_eq_true] at h
    have hm : matchIdPathAt (c :: cs) = none := by
      rcases cs with _ | ⟨b, _ | ⟨d, cs3⟩⟩
      · rfl
      · rfl
      · simp only [matchIdPathAt]
        rw [if_neg]
        intro hc
        exact isDigit_ne_slash c h.1 hc.1
    simp only [scanMatch, hm]
    exact ih h.2

/-- Raw catalog JSON item as the code reads it: every field may be absent
(`undefined` in JS is `none` here). -/
structure ItunesItem where
  trackId : Option Int
  trackName : Option String
  artistName : Option String
  collectionName : Option String
  artworkUrl100 : Option String
  artworkUrl60 : Option String
  previewUrl : Option String
  trackViewUrl : Option String
  collectionViewUrl : Option String
deriving DecidableEq, Repr

/-- The display record built by `normalizeItunesItem`. -/
structure Track where
  id : Option Int
  title : Option String
  artist : Option String
  album : Option String
  artwork : String
  previewUrl : Option String
  itunesUrl : Option String
deriving DecidableEq, Repr

/-- JS `a || b` on an optional string against a string default:
`undefined` and `""` are falsy. -/
def jsOr (a : Option String) (b : String) : String :=
  match a with
  | some s => if s = "" then b else s
  | none => b

/-- JS `a || b` on optional strings: `undefined` and `""` are falsy. -/
def jsOrOpt (a : Option String) (b : Option String) : Option String :=
  match a with
  | some s => if s = "" then b else some s
  | none => b

/-- JS string coercion of a possibly-undefined string, as produced by
`"Found: " + item.trackName`. -/
def jsToString : Option String → String
  | some s => s
  | none => "undefined"

/-- `.replace(/100x100|60x60/, "600x600")`: replace the leftmost
occurrence of either token (no `g` flag, so only the first). -/
def replaceFirstSize : List Char → List Char
  | [] => []
  | c :: rest =>
    if ("100x100".data).isPrefixOf (c :: rest) then
      "600x600".data ++ (c :: rest).drop 7
    else if ("60x60".data).isPrefixOf (c :: rest) then
      "600x600".data ++ (c :: rest).drop 5
    else c :: replaceFirstSize rest

/-- True when the list contains `100x100` or `60x60` as a contiguous run. -/
def hasSizeToken (l : List Char) : Bool :=
  l.tails.any (fun t => ("100x100".data).isPrefixOf t || ("60x60".data).isPrefixOf t)

/-- `normalizeItunesItem` from `src/pages/index.js`. -/
def normalizeItunesItem (item : ItunesItem) : Track :=
  { id := item.trackId
    title := item.trackName
    artist := item.artistName
    album := item.collectionName
    artwork := String.mk (replaceFirstSize (jsOr item.artworkUrl100 (jsOr item.artworkUrl60 "")).data)
    previewUrl := jsOrOpt item.previewUrl none
    itunesUrl := jsOrOpt item.trackViewUrl (jsOrOpt item.collectionViewUrl none) }

/-- Body of a catalog API response, `{ resultCount, results }`. -/
structure ItunesResponse where
  resultCount : Nat
  results : List ItunesItem
deriving DecidableEq, Repr

/-- Outcome of one `fetch` + `res.json()` round trip: a decoded body, or
any thrown error (network failure, bad JSON). -/
inductive FetchResult where
  | ok (json : ItunesResponse)
  | err
deriving DecidableEq, Repr

/-- External operations the handlers attempt, with their arguments. -/
inductive Attempt where
  | fetchL (id : String)
  | fetchS (term : String)
  | getCams
  | camStartDevice (deviceId : String)
  | camStartFacing
  | camStop
  | camClear
deriving DecidableEq, Repr

/-- Page component state: the track record, the details toggle and the
status line. -/
structure PageState where
  track : Option Track
  showDetails : Bool
  status : String
deriving DecidableEq, Repr

/-- `lookupById` from `src/pages/index.js`: clear the track and details,
fetch the lookup endpoint, and set the track only on a response with a
nonzero `resultCount` and a nonempty `results`. Returns the new state with
the list of attempted network operations. -/
def lookupById (id : String) (resp : FetchResult) (s : PageState) : PageState × List Attempt :=
  let s1 : PageState :=
    { s with track := none, showDetails := false,
             status := "Looking up track id " ++ id ++ " …" }
  (match resp with
   | FetchResult.err => { s1 with status := "Lookup failed" }
   | FetchResult.ok json =>
     match json.resultCount, json.results with
     | Nat.succ _, item :: _ =>
       { s1 with track := some (normalizeItunesItem item),
                 status := "Found: " ++ jsToString item.trackName ++ " — tap Play" }
     | _, _ => { s1 with status := "No results for id: " ++ id },
   [Attempt.fetchL id])

/-- `searchByText` from `src/pages/index.js`. -/
def searchByText (text : String) (resp : FetchResult) (s : PageState) : PageState × List Attempt :=
  let s1 : PageState :=
    { s with track := none, showDetails := false,
             status := "Searching iTunes for scanned text…" }
  (match resp with
   | FetchResult.err => { s1 with status := "Search failed" }
   | FetchResult.ok json =>
     match json.resultCount, json.results with
     | Nat.succ _, item :: _ =>
       { s1 with track := some (normalizeItunesItem item),
                 status := "Found by text: " ++ jsToString item.trackName }
     | _, _ => { s1 with status := "No search results for scanned text" },
   [Attempt.fetchS text])

/-- `handleScan` from `src/pages/index.js`: extract an identifier from the
decoded text; a truthy identifier goes to the lookup, anything else to the
text search. `resp` is the outcome of whichever network call is made. -/
def handleScan (decodedText : String) (resp : FetchResult) (s : PageState) : PageState × List Attempt :=
  let s1 : PageState := { s with status := "Scanned — processing..." }
  match extractAppleTrackId (some decodedText) with
  | some id => if id = "" then searchByText decodedText resp s1 else lookupById id resp s1
  | none => searchByText decodedText resp s1

/-- Upper-case hexadecimal digit for a value below 16. -/
def hexDigit (n : Nat) : Char :=
  if n < 10 then Char.ofNat (48 + n) else Char.ofNat (55 + n)

/-- Percent-encoding of one byte, `%HH`. -/
def percentByte (b : Nat) : List Char :=
  ['%', hexDigit (b / 16), hexDigit (b % 16)]

/-- UTF-8 bytes of a Unicode code point. -/
def utf8Bytes (n : Nat) : List Nat :=
  if n < 128 then [n]
  else if n < 2048 then [192 + n / 64, 128 + n % 64]
  else if n < 65536 then [224 + n / 4096, 128 + (n / 64) % 64, 128 + n % 64]
  else [240 + n / 262144, 128 + (n / 4096) % 64, 128 + (n / 64) % 64, 128 + n % 64]

/-- Characters `encodeURIComponent` leaves unescaped:
`A-Z a-z 0-9 - _ . ! ~ * ' ( )`. -/
def isUnescapedURI (c : Char) : Bool :=
  c.isAlpha || c.isDigit || c = '-' || c = '_' || c = '.' || c = '!' ||
    c = '~' || c = '*' || c = Char.ofNat 39 || c = '(' || c = ')'

/-- JS `encodeURIComponent`: unescaped characters pass through, every
other character is UTF-8 encoded and each byte percent-escaped. -/
def encodeURIComponent (s : String) : String :=
  String.mk (s.data.flatMap fun c =>
    if isUnescapedURI c then [c] else (utf8Bytes c.toNat).flatMap percentByte)

/-- The lookup request URL built in `lookupById`. -/
def lookupUrl (id : String) : String :=
  "https://itunes.apple.com/lookup?id=" ++ encodeURIComponent id ++ "&entity=song"

/-- The search request URL built in `searchByText`. -/
def searchUrl (text : String) : String :=
  "https://itunes.apple.com/search?term=" ++ encodeURIComponent text ++ "&entity=song&limit=1"

/-- URL of the GET request an attempt performs, when it is a network one. -/
def requestUrl : Attempt → Option String
  | Attempt.fetchL id => some (lookupUrl id)
  | Attempt.fetchS t => some (searchUrl t)
  | _ => none

/-- A camera device as returned by `getCameras`. -/
structure Camera where
  id : String
  label : String
deriving DecidableEq, Repr

/-- Scanner component state of `src/components/QrScanner.js`: the loaded
flag, the `scanning` flag, whether an `Html5Qrcode` instance is held, the
error line, and the camera list/selection. -/
structure ScannerState where
  scriptLoaded : Bool
  scanning : Bool
  html5QrRef : Bool
  errorMsg : String
  cameras : List Camera
  selectedCameraId : String
deriving DecidableEq, Repr

/-- Environment outcomes for one `startScanner` invocation: whether
construction, the device-id start and the facing-mode start succeed. -/
structure StartEnv where
  createOk : Bool
  deviceStartOk : Bool
  fallbackStartOk : Bool
deriving DecidableEq, Repr

/-- Case-insensitive test for `/back|rear|environment/i` on a label. -/
def isBackLabel (label : String) : Bool :=
  let l := label.toLower.data
  l.tails.any fun t =>
    ("back".data).isPrefixOf t || ("rear".data).isPrefixOf t ||
      ("environment".data).isPrefixOf t

/-- `initCameras` from `src/components/QrScanner.js`, given the outcome of
the camera-list query: API unavailable, `getCameras` threw, or a list. -/
inductive CamerasResult where
  | unavailable
  | err
  | ok (cams : List Camera)
deriving DecidableEq, Repr

def initCameras (res : CamerasResult) (s : ScannerState) : ScannerState × List Attempt :=
  let s0 : ScannerState := { s with errorMsg := "" }
  match res with
  | CamerasResult.unavailable =>
    ({ s0 with errorMsg := "Camera API unavailable in this browser." }, [])
  | CamerasResult.err =>
    ({ s0 with errorMsg := "Could not access camera list. Permission denied or browser blocked." },
     [Attempt.getCams])
  | CamerasResult.ok cams =>
    match cams with
    | [] =>
      ({ s0 with errorMsg := "No cameras found. Make sure the device has a camera and camera permissions are allowed.",
                 cameras := [] }, [Attempt.getCams])
    | c :: rest =>
      let preferred := (((c :: rest).find? fun cam => isBackLabel cam.label).getD c)
      ({ s0 with cameras := c :: rest, selectedCameraId := preferred.id }, [Attempt.getCams])

/-- `startScanner` from `src/components/QrScanner.js`: clear the error,
bail out if the library is not loaded or already scanning, create the
instance, try the device-id start when a device id is given, fall back to
a facing-mode start, and on total failure clear the instance and report. -/
def startScanner (env : StartEnv) (deviceId : String) (s : ScannerState) :
    ScannerState × List Attempt :=
  let s0 : ScannerState := { s with errorMsg := "" }
  if s.scriptLoaded = false then
    ({ s0 with errorMsg := "Scanner library not yet loaded." }, [])
  else if s.scanning = true then (s0, [])
  else if env.createOk = false then
    ({ s0 with errorMsg := "Scanner initialization failed." }, [])
  else
    let s1 : ScannerState := { s0 with html5QrRef := true }
    if deviceId = "" then
      if env.fallbackStartOk then
        ({ s1 with scanning := true, errorMsg := "" }, [Attempt.camStartFacing])
      else
        ({ s1 with errorMsg := "Unable to start camera. Please ensure camera permission is allowed and the site is served over HTTPS (or localhost).",
                   html5QrRef := false, scanning := false },
         [Attempt.camStartFacing, Attempt.camClear])
    else
      if env.deviceStartOk then
        ({ s1 with scanning := true, errorMsg := "" }, [Attempt.camStartDevice deviceId])
      else if env.fallbackStartOk then
        ({ s1 with scanning := true, errorMsg := "" },
         [Attempt.camStartDevice deviceId, Attempt.camStartFacing])
      else
        ({ s1 with errorMsg := "Unable to start camera. Please ensure camera permission is allowed and the site is served over HTTPS (or localhost).",
                   html5QrRef := false, scanning := false },
         [Attempt.camStartDevice deviceId, Attempt.camStartFacing, Attempt.camClear])

/-- `stopScanner` from `src/components/QrScanner.js`: stop and clear the
held instance when there is one, then drop it and clear `scanning`. -/
def stopScanner (s : ScannerState) : ScannerState × List Attempt :=
  let s0 : ScannerState := { s with errorMsg := "" }
  if s.html5QrRef = false then ({ s0 with scanning := false }, [])
  else
    ({ s0 with html5QrRef := false, scanning := false },
     [Attempt.camStop, Attempt.camClear])

/-- Scanner state of the unnamed variant (`src/unnamed/part_000`): no
error line, a possibly-null selected camera. -/
structure Scanner2State where
  libLoaded : Bool
  scanning : Bool
  scannerRef : Bool
  selectedCameraId : Option String
deriving DecidableEq, Repr

/-- Environment outcomes for one start of the unnamed variant. -/
structure Start2Env where
  startOk : Bool
  fallbackOk : Bool
deriving DecidableEq, Repr

/-- The camera-start attempt of the unnamed variant:
`chosenCameraId || { facingMode: "environment" }`. -/
def startAttempt2 : Option String → Attempt
  | some cid => if cid = "" then Attempt.camStartFacing else Attempt.camStartDevice cid
  | none => Attempt.camStartFacing

/-- `startScanner` from `src/unnamed/part_000`: bail out if the library is
missing or already scanning; start with the chosen camera (or facing
mode), and in the catch block retry with the facing-mode constraint. -/
def startScanner2 (env : Start2Env) (s : Scanner2State) : Scanner2State × List Attempt :=
  if s.libLoaded = false then (s, [])
  else if s.scanning = true then (s, [])
  else
    let s1 : Scanner2State := { s with scannerRef := true }
    if env.startOk then
      ({ s1 with scanning := true }, [startAttempt2 s.selectedCameraId])
    else if env.fallbackOk then
      ({ s1 with scanning := true },
       [startAttempt2 s.selectedCameraId, Attempt.camStartFacing])
    else
      ({ s1 with scanning := false },
       [startAttempt2 s.selectedCameraId, Attempt.camStartFacing, Attempt.camClear])

/-- `stopScanner` from `src/unnamed/part_000`. -/
def stopScanner2 (s : Scanner2State) : Scanner2State × List Attempt :=
  if s.scannerRef = false then ({ s with scanning := false }, [])
  else
    ({ s with scannerRef := false, scanning := false },
     [Attempt.camStop, Attempt.camClear])

/-- C1 (counterexample): the claim reads the third shape as "the string
itself when it is entirely numeric", but the source regex is `^(\d{6,})$`:
on the entirely numeric "12345" the function returns null, not "12345". -/
theorem extract_claimC1_cex :
    ¬ (∀ x : Option String, extractAppleTrackId x = extractClaimC1 x) := by
  intro h
  have h1 : extractAppleTrackId (some "12345") = none := by decide
  have h2 : extractClaimC1 (some "12345") = some "12345" := by decide
  have h3 := h (some "12345")
  rw [h1, h2] at h3
  exact Option.noConfusion h3

/-- C1 (amended): for every input, `extractAppleTrackId` returns the
capture of the first `[?&]i=(\d+)` match, else of the first `/id(\d+)`
match, else the string itself when it is entirely numeric with at least
six digits, and null otherwise. -/
theorem extract_matches_amended_claim (x : Option String) :
    extractAppleTrackId x = extractClaimC1Amended x := by
  cases x with
  | none => rfl
  | some t =>
    by_cases ht : t = ""
    · simp [extractAppleTrackId, extractClaimC1Amended, ht]
    · simp only [extractAppleTrackId, extractClaimC1Amended, if_neg ht]
      cases hip : scanMatch matchIParamAt t.data with
      | some r => rfl
      | none =>
        cases hid : scanMatch matchIdPathAt t.data with
        | some r => rfl
        | none => exact matchNumericFull_map t.data

/-- C9: the `i=` query parameter takes priority over the `/id` path
segment, which takes priority over the plain-numeric shape; a URL holding
both `?i=111` and `/id222` yields "111". -/
theorem extract_precedence (t : String) :
    (∀ r, scanMatch matchIParamAt t.data = some r →
       extractAppleTrackId (some t) = some (String.mk r))
    ∧ (scanMatch matchIParamAt t.data = none →
       ∀ r, scanMatch matchIdPathAt t.data = some r →
         extractAppleTrackId (some t) = some (String.mk r))
    ∧ extractAppleTrackId (some "https://x.com/album/id222?i=111") = some "111" := by
  refine ⟨?_, ?_, by decide⟩
  · intro r hr
    by_cases ht : t = ""
    · rw [ht, (by decide : scanMatch matchIParamAt ("" : String).data = none)] at hr
      exact Option.noConfusion hr
    · simp [extractAppleTrackId, if_neg ht, hr]
  · intro hip r hr
    by_cases ht : t = ""
    · rw [ht, (by decide : scanMatch matchIdPathAt ("" : String).data = none)] at hr
      exact Option.noConfusion hr
    · simp [extractAppleTrackId, if_neg ht, hip, hr]

/-- C9 (witness): on "/id7?i=88" the query parameter wins over the path
segment. -/
theorem extract_precedence_witness :
    extractAppleTrackId (some "/id7?i=88") = some (String.mk ['8', '8']) :=
  (extract_precedence "/id7?i=88").1 ['8', '8'] (by decide)

/-- C10: `extractAppleTrackId` returns null for null and empty input and
for every purely numeric string of fewer than six digits, and such a
string is dispatched to the text search by the scan handler. -/
theorem extract_falsy_and_short_numeric (t : String) (resp : FetchResult) (ps : PageState) :
    extractAppleTrackId none = none
    ∧ extractAppleTrackId (some "") = none
    ∧ (t.data.all Char.isDigit = true → t.data.length < 6 →
        extractAppleTrackId (some t) = none)
    ∧ (handleScan "12345" resp ps).2 = [Attempt.fetchS "12345"] := by
  refine ⟨rfl, by decide, ?_, ?_⟩
  · intro h1 h2
    by_cases ht : t = ""
    · simp [extractAppleTrackId, ht]
    · have h6 : ¬ (6 ≤ t.data.length ∧ t.data.all Char.isDigit = true) := by
        intro hc
        omega
      simp only [extractAppleTrackId, if_neg ht, scanIParam_all_digits t.data h1,
                 scanIdPath_all_digits t.data h1, matchNumericFull_map]
      rw [if_neg h6]
  · have hex : extractAppleTrackId (some "12345") = none := by decide
    simp [handleScan, hex, searchByText]

/-- C10 (witness): the short numeric "123" is all digits, shorter than six
characters, and extracts to null. -/
theorem extract_falsy_and_short_numeric_witness :
    extractAppleTrackId (some "123") = none :=
  (extract_falsy_and_short_numeric "123" FetchResult.err ⟨none, false, ""⟩).2.2.1
    (by decide) (by decide)

theorem replaceFirstSize_no_token (l : List Char) (h : hasSizeToken l = false) :
    replaceFirstSize l = l := by
  induction l with
  | nil => rfl
  | cons c cs ih =>
    simp only [hasSizeToken, List.tails_cons, List.any_cons, Bool.or_eq_false_iff] at h
    obtain ⟨⟨h1, h2⟩, h3⟩ := h
    have ihr : replaceFirstSize cs = cs := by
      apply ih
      rw [hasSizeToken]
      exact h3
    simp only [replaceFirstSize, h1, h2, Bool.false_eq_true, if_false, ihr]

/-- C2: `normalizeItunesItem` copies `trackId`, `trackName`, `artistName`
and `collectionName` into `id`, `title`, `artist` and `album`; the artwork
comes from `artworkUrl100`, falling back to `artworkUrl60` and then the
empty string, with the first `100x100` or `60x60` run replaced by
`600x600` (a token-free URL is kept as is, and only the leftmost token is
replaced); `previewUrl` and `itunesUrl` apply the stated fallbacks. -/
theorem normalize_claim (item : ItunesItem) (s : String) :
    (normalizeItunesItem item).id = item.trackId
    ∧ (normalizeItunesItem item).title = item.trackName
    ∧ (normalizeItunesItem item).artist = item.artistName
    ∧ (normalizeItunesItem item).album = item.collectionName
    ∧ (item.artworkUrl100 = some s → s ≠ "" →
        (normalizeItunesItem item).artwork = String.mk (replaceFirstSize s.data))
    ∧ ((item.artworkUrl100 = none ∨ item.artworkUrl100 = some "") →
        item.artworkUrl60 = some s → s ≠ "" →
        (normalizeItunesItem item).artwork = String.mk (replaceFirstSize s.data))
    ∧ ((item.artworkUrl100 = none ∨ item.artworkUrl100 = some "") →
        (item.artworkUrl60 = none ∨ item.artworkUrl60 = some "") →
        (normalizeItunesItem item).artwork = "")
    ∧ (hasSizeToken s.data = false → replaceFirstSize s.data = s.data)
    ∧ replaceFirstSize ("a/100x100bb/x.jpg".data) = ("a/600x600bb/x.jpg".data)
    ∧ replaceFirstSize ("a/60x60bb/x.jpg".data) = ("a/600x600bb/x.jpg".data)
    ∧ replaceFirstSize ("p60x60q100x100".data) = ("p600x600q100x100".data)
    ∧ (item.previewUrl = some s → s ≠ "" → (normalizeItunesItem item).previewUrl = some s)
    ∧ ((item.previewUrl = none ∨ item.previewUrl = some "") →
        (normalizeItunesItem item).previewUrl = none)
    ∧ (item.trackViewUrl = some s → s ≠ "" → (normalizeItunesItem item).itunesUrl = some s)
    ∧ ((item.trackViewUrl = none ∨ item.trackViewUrl = some "") →
        item.collectionViewUrl = some s → s ≠ "" →
        (normalizeItunesItem item).itunesUrl = some s)
    ∧ ((item.trackViewUrl = none ∨ item.trackViewUrl = some "") →
        (item.collectionViewUrl = none ∨ item.collectionViewUrl = some "") →
        (normalizeItunesItem item).itunesUrl = none) := by
  refine ⟨rfl, rfl, rfl, rfl, ?_, ?_, ?_, replaceFirstSize_no_token s.data,
          by decide, by decide, by decide, ?_, ?_, ?_, ?_, ?_⟩
  · intro h100 hne
    simp [normalizeItunesItem, jsOr, h100, hne]
  · rintro (h100 | h100) h60 hne <;>
      simp [normalizeItunesItem, jsOr, h100, h60, hne]
  · rintro (h100 | h100) (h60 | h60) <;>
      simp [normalizeItunesItem, jsOr, h100, h60] <;> decide
  · intro hp hne
    simp [normalizeItunesItem, jsOrOpt, hp, hne]
  · rintro (hp | hp) <;> simp [normalizeItunesItem, jsOrOpt, hp]
  · intro hv hne
    simp [normalizeItunesItem, jsOrOpt, hv, hne]
  · rintro (hv | hv) hc hne <;> simp [normalizeItunesItem, jsOrOpt, hv, hc, hne]
  · rintro (hv | hv) (hc | hc) <;> simp [normalizeItunesItem, jsOrOpt, hv, hc]

/-- C2 (witness): a concrete item whose artwork is the `100x100` URL with
the size token rewritten. -/
theorem normalize_claim_witness :
    (normalizeItunesItem
        ⟨some 5, some "T", some "A", some "C", some "https://img/100x100bb.jpg",
         none, none, none, none⟩).artwork
      = String.mk (replaceFirstSize ("https://img/100x100bb.jpg".data)) :=
  (normalize_claim
      ⟨some 5, some "T", some "A", some "C", some "https://img/100x100bb.jpg",
       none, none, none, none⟩ "https://img/100x100bb.jpg").2.2.2.2.1 rfl (by decide)

theorem digitRun_ne_nil (l : List Char) (h : digitHead l = true) : digitRun l ≠ [] := by
  cases l with
  | nil => exact absurd h (by decide)
  | cons c cs =>
    rw [digitHead] at h
    simp [digitRun, h]

theorem matchIParamAt_ne_nil (l : List Char) (r : List Char)
    (h : matchIParamAt l = some r) : r ≠ [] := by
  rcases l with _ | ⟨a, _ | ⟨b, _ | ⟨c, rest⟩⟩⟩
  · exact Option.noConfusion h
  · exact Option.noConfusion h
  · exact Option.noConfusion h
  · rw [matchIParamAt] at h
    by_cases hc : (a = '?' ∨ a = '&') ∧ b = 'i' ∧ c = '=' ∧ digitHead rest = true
    · rw [if_pos hc, Option.some_inj] at h
      rw [← h]
      exact digitRun_ne_nil rest hc.2.2.2
    · rw [if_neg hc] at h
      exact Option.noConfusion h

theorem matchIdPathAt_ne_nil (l : List Char) (r : List Char)
    (h : matchIdPathAt l = some r) : r ≠ [] := by
  rcases l with _ | ⟨a, _ | ⟨b, _ | ⟨c, rest⟩⟩⟩
  · exact Option.noConfusion h
  · exact Option.noConfusion h
  · exact Option.noConfusion h
  · rw [matchIdPathAt] at h
    by_cases hc : a = '/' ∧ b = 'i' ∧ c = 'd' ∧ digitHead rest = true
    · rw [if_pos hc, Option.some_inj] at h
      rw [← h]
      exact digitRun_ne_nil rest hc.2.2.2
    · rw [if_neg hc] at h
      exact Option.noConfusion h

theorem scanMatch_ne_nil (m : List Char → Option (List Char))
    (hm : ∀ l r, m l = some r → r ≠ []) (l : List Char) (r : List Char)
    (h : scanMatch m l = some r) : r ≠ [] := by
  induction l with
  | nil => exact absurd h (by simp [scanMatch])
  | cons c cs ih =>
    rw [scanMatch] at h
    cases hc : m (c :: cs) with
    | some r2 =>
      rw [hc, Option.some_inj] at h
      rw [← h]
      exact hm _ _ hc
    | none =>
      rw [hc] at h
      exact ih h

theorem extract_some_ne_empty (x : Option String) (id : String)
    (h : extractAppleTrackId x = some id) : id ≠ "" := by
  cases x with
  | none => exact absurd h (by simp [extractAppleTrackId])
  | some t =>
    by_cases ht : t = ""
    · rw [extractAppleTrackId, if_pos ht] at h
      exact absurd h (by simp)
    · rw [extractAppleTrackId, if_neg ht] at h
      have hmk : ∀ r : List Char, r ≠ [] → String.mk r ≠ "" := by
        intro r hr he
        exact hr (congrArg String.data he)
      cases hip : scanMatch matchIParamAt t.data with
      | some r =>
        rw [hip, Option.some_inj] at h
        rw [← h]
        exact hmk r (scanMatch_ne_nil matchIParamAt matchIParamAt_ne_nil t.data r hip)
      | none =>
        rw [hip] at h
        cases hid : scanMatch matchIdPathAt t.data with
        | some r =>
          rw [hid, Option.some_inj] at h
          rw [← h]
          exact hmk r (scanMatch_ne_nil matchIdPathAt matchIdPathAt_ne_nil t.data r hid)
        | none =>
          rw [hid, matchNumericFull] at h
          by_cases hc : 6 ≤ t.data.length ∧ t.data.all Char.isDigit = true
          · rw [if_pos hc] at h
            have h2 : some (String.mk t.data) = some id := h
            rw [Option.some_inj] at h2
            rw [← h2]
            apply hmk
            intro he
            rw [he] at hc
            exact absurd hc.1 (by decide)
          · rw [if_neg hc] at h
            exact Option.noConfusion h

/-- C3: every scan issues exactly one network call — the lookup when an
identifier is extracted, otherwise the search; never both. -/
theorem scan_single_call (t : String) (resp : FetchResult) (ps : PageState) :
    (handleScan t resp ps).2.length = 1
    ∧ (∀ id, extractAppleTrackId (some t) = some id →
        (handleScan t resp ps).2 = [Attempt.fetchL id])
    ∧ (extractAppleTrackId (some t) = none →
        (handleScan t resp ps).2 = [Attempt.fetchS t]) := by
  refine ⟨?_, ?_, ?_⟩
  · rcases hx : extractAppleTrackId (some t) with _ | id
    · simp [handleScan, hx, searchByText]
    · have hne : id ≠ "" := extract_some_ne_empty _ _ hx
      simp [handleScan, hx, hne, lookupById]
  · intro id hx
    have hne : id ≠ "" := extract_some_ne_empty _ _ hx
    simp [handleScan, hx, hne, lookupById]
  · intro hx
    simp [handleScan, hx, searchByText]

/-- C3 (witness): the six-digit scan "123456" issues exactly the lookup
call. -/
theorem scan_single_call_witness :
    (handleScan "123456" FetchResult.err ⟨none, false, ""⟩).2
      = [Attempt.fetchL "123456"] :=
  (scan_single_call "123456" FetchResult.err ⟨none, false, ""⟩).2.1 "123456" (by decide)

theorem handleScan_eq (dec : String) (resp : FetchResult) (ps : PageState) :
    handleScan dec resp ps =
      match extractAppleTrackId (some dec) with
      | some id => lookupById id resp { ps with status := "Scanned — processing..." }
      | none => searchByText dec resp { ps with status := "Scanned — processing..." } := by
  rcases hx : extractAppleTrackId (some dec) with _ | id
  · simp [handleScan, hx]
  · have hne : id ≠ "" := extract_some_ne_empty _ _ hx
    simp [handleScan, hx, hne]

theorem lookupById_track_indep (id : String) (resp : FetchResult) (a b : PageState) :
    (lookupById id resp a).1.track = (lookupById id resp b).1.track := by
  rcases resp with ⟨⟨cnt, items⟩⟩ | _
  · rcases cnt with _ | n <;> rcases items with _ | ⟨it, rest⟩ <;> simp [lookupById]
  · simp [lookupById]

theorem searchByText_track_indep (t : String) (resp : FetchResult) (a b : PageState) :
    (searchByText t resp a).1.track = (searchByText t resp b).1.track := by
  rcases resp with ⟨⟨cnt, items⟩⟩ | _
  · rcases cnt with _ | n <;> rcases items with _ | ⟨it, rest⟩ <;> simp [searchByText]
  · simp [searchByText]

/-- C6: a scan always hides the details; the track is cleared and only a
response with a nonzero count and a nonempty result list creates a new
record, which is the normalization of the first result and ignores every
part of the previous page state. -/
theorem track_lifecycle (dec : String) (resp : FetchResult) (ps ps2 : PageState)
    (cnt : Nat) (item : ItunesItem) (items : List ItunesItem) :
    (handleScan dec resp ps).1.showDetails = false
    ∧ (handleScan dec FetchResult.err ps).1.track = none
    ∧ (handleScan dec (FetchResult.ok ⟨cnt, []⟩) ps).1.track = none
    ∧ (handleScan dec (FetchResult.ok ⟨0, items⟩) ps).1.track = none
    ∧ (handleScan dec (FetchResult.ok ⟨cnt + 1, item :: items⟩) ps).1.track
        = some (normalizeItunesItem item)
    ∧ (handleScan dec resp ps).1.track = (handleScan dec resp ps2).1.track := by
  refine ⟨?_, ?_, ?_, ?_, ?_, ?_⟩
  · rw [handleScan_eq]
    rcases extractAppleTrackId (some dec) with _ | id
    · rcases resp with ⟨⟨c2, items2⟩⟩ | _
      · rcases c2 with _ | n <;> rcases items2 with _ | ⟨it, rest⟩ <;> simp [searchByText]
      · simp [searchByText]
    · rcases resp with ⟨⟨c2, items2⟩⟩ | _
      · rcases c2 with _ | n <;> rcases items2 with _ | ⟨it, rest⟩ <;> simp [lookupById]
      · simp [lookupById]
  · rw [handleScan_eq]
    rcases extractAppleTrackId (some dec) with _ | id <;> simp [lookupById, searchByText]
  · rw [handleScan_eq]
    rcases extractAppleTrackId (some dec) with _ | id <;>
      rcases cnt with _ | n <;> simp [lookupById, searchByText]
  · rw [handleScan_eq]
    rcases extractAppleTrackId (some dec) with _ | id <;>
      rcases items with _ | ⟨it, rest⟩ <;> simp [lookupById, searchByText]
  · rw [handleScan_eq]
    rcases extractAppleTrackId (some dec) with _ | id <;> simp [lookupById, searchByText]
  · rw [handleScan_eq, handleScan_eq]
    rcases extractAppleTrackId (some dec) with _ | id
    · exact searchByText_track_indep dec resp _ _
    · exact lookupById_track_indep id resp _ _

/-- C7: the lookup issues
`GET https://itunes.apple.com/lookup?id=<id>&entity=song` and the search
issues `GET https://itunes.apple.com/search?term=<text>&entity=song&limit=1`,
with the id and text encoded by `encodeURIComponent`. -/
theorem api_request_urls (t : String) (resp : FetchResult) (ps : PageState) :
    (∀ id, extractAppleTrackId (some t) = some id →
      ((handleScan t resp ps).2).map requestUrl
        = [some ("https://itunes.apple.com/lookup?id=" ++ encodeURIComponent id ++ "&entity=song")])
    ∧ (extractAppleTrackId (some t) = none →
      ((handleScan t resp ps).2).map requestUrl
        = [some ("https://itunes.apple.com/search?term=" ++ encodeURIComponent t ++ "&entity=song&limit=1")]) := by
  constructor
  · intro id hx
    have hne : id ≠ "" := extract_some_ne_empty _ _ hx
    simp [handleScan, hx, hne, lookupById, requestUrl, lookupUrl]
  · intro hx
    simp [handleScan, hx, searchByText, requestUrl, searchUrl]

/-- C7 (witness): a non-identifier scan of "hello world!" issues the
search request with the space percent-encoded. -/
theorem api_request_urls_witness :
    ((handleScan "hello world!" FetchResult.err ⟨none, false, ""⟩).2).map requestUrl
      = [some "https://itunes.apple.com/search?term=hello%20world!&entity=song&limit=1"] := by
  have h := (api_request_urls "hello world!" FetchResult.err ⟨none, false, ""⟩).2 (by decide)
  rw [h]
  decide

/-- Overall success condition of one `startScanner` invocation of
`src/components/QrScanner.js`. -/
def startSucceeds (env : StartEnv) (deviceId : String) : Bool :=
  env.createOk &&
    (if deviceId = "" then env.fallbackStartOk
     else env.deviceStartOk || env.fallbackStartOk)

theorem startScanner_scriptLoaded (env : StartEnv) (dev : String) (s : ScannerState) :
    (startScanner env dev s).1.scriptLoaded = s.scriptLoaded := by
  rcases env with ⟨co, dso, fso⟩
  by_cases hd : dev = "" <;> cases co <;> cases dso <;> cases fso <;>
    cases hsl : s.scriptLoaded <;> cases hsc : s.scanning <;>
      simp_all [startScanner]

theorem startScanner_success (env : StartEnv) (dev : String) (s : ScannerState)
    (h1 : s.scriptLoaded = true) (h2 : s.scanning = false)
    (h3 : startSucceeds env dev = true) :
    (startScanner env dev s).1 =
      { s with errorMsg := "", html5QrRef := true, scanning := true } := by
  rcases env with ⟨co, dso, fso⟩
  simp only [startSucceeds] at h3
  by_cases hd : dev = "" <;> cases co <;> cases dso <;> cases fso <;>
    simp_all [startScanner]

theorem startScanner_failure (env : StartEnv) (dev : String) (s : ScannerState)
    (h1 : s.scriptLoaded = true) (h2 : s.scanning = false)
    (h3 : startSucceeds env dev = false) :
    (startScanner env dev s).1.scanning = false
    ∧ ((startScanner env dev s).1.errorMsg = "Scanner initialization failed."
       ∨ (startScanner env dev s).1.errorMsg
           = "Unable to start camera. Please ensure camera permission is allowed and the site is served over HTTPS (or localhost).") := by
  rcases env with ⟨co, dso, fso⟩
  simp only [startSucceeds] at h3
  by_cases hd : dev = "" <;> cases co <;> cases dso <;> cases fso <;>
    simp_all [startScanner]

theorem startScanner_noop (env : StartEnv) (dev : String) (s : ScannerState)
    (h1 : s.scanning = true) (h2 : s.scriptLoaded = true) (h3 : s.errorMsg = "") :
    (startScanner env dev s).1 = s := by
  rcases s with ⟨sl, sc, ref, em, cams, sel⟩
  simp_all [startScanner]

theorem startScanner_idem (env : StartEnv) (dev : String) (s : ScannerState) :
    (startScanner env dev ((startScanner env dev s).1)).1 = (startScanner env dev s).1 := by
  rcases env with ⟨co, dso, fso⟩
  rcases s with ⟨sl, sc, ref, em, cams, sel⟩
  by_cases hd : dev = "" <;> cases sl <;> cases sc <;> cases co <;> cases dso <;>
    cases fso <;> simp_all [startScanner]

theorem startScanner2_noop (env2 : Start2Env) (s2 : Scanner2State)
    (h : s2.scanning = true) : startScanner2 env2 s2 = (s2, []) := by
  rcases s2 with ⟨lib, sc, ref, cam⟩
  cases lib <;> simp_all [startScanner2]

theorem startScanner2_idem (env2 : Start2Env) (s2 : Scanner2State) :
    (startScanner2 env2 ((startScanner2 env2 s2).1)).1 = (startScanner2 env2 s2).1 := by
  rcases env2 with ⟨so, fo⟩
  rcases s2 with ⟨lib, sc, ref, cam⟩
  cases lib <;> cases sc <;> cases so <;> cases fo <;> simp_all [startScanner2]

/-- C8: in both scanner components, a start while `scanning` is set does
nothing, a successful start sets `scanning`, stopping always clears
`scanning` and releases the instance, and starting twice in a row equals
starting once. -/
theorem scanner_state_machine (env : StartEnv) (dev : String) (s : ScannerState)
    (env2 : Start2Env) (s2 : Scanner2State) :
    (s.scanning = true → s.scriptLoaded = true → s.errorMsg = "" →
      (startScanner env dev s).1 = s)
    ∧ (s.scriptLoaded = true → s.scanning = false → startSucceeds env dev = true →
        (startScanner env dev s).1.scanning = true)
    ∧ ((stopScanner s).1.scanning = false ∧ (stopScanner s).1.html5QrRef = false)
    ∧ (startScanner env dev ((startScanner env dev s).1)).1 = (startScanner env dev s).1
    ∧ (s2.scanning = true → startScanner2 env2 s2 = (s2, []))
    ∧ ((stopScanner2 s2).1.scanning = false ∧ (stopScanner2 s2).1.scannerRef = false)
    ∧ (startScanner2 env2 ((startScanner2 env2 s2).1)).1 = (startScanner2 env2 s2).1 := by
  refine ⟨?_, ?_, ?_, startScanner_idem env dev s, startScanner2_noop env2 s2,
          ?_, startScanner2_idem env2 s2⟩
  · intro h1 h2 h3
    exact startScanner_noop env dev s h1 h2 h3
  · intro h1 h2 h3
    rw [startScanner_success env dev s h1 h2 h3]
  · constructor <;> rcases s with ⟨sl, sc, ref, em, cams, sel⟩ <;>
      cases ref <;> simp [stopScanner]
  · constructor <;> rcases s2 with ⟨lib, sc, ref, cam⟩ <;>
      cases ref <;> simp [stopScanner2]

/-- C8 (witness): from a freshly started scanner state, a second start
leaves the state unchanged. -/
theorem scanner_state_machine_witness :
    (startScanner ⟨true, true, true⟩ "cam0"
        ⟨true, true, true, "", [], "cam0"⟩).1 = ⟨true, true, true, "", [], "cam0"⟩ :=
  (scanner_state_machine ⟨true, true, true⟩ "cam0" ⟨true, true, true, "", [], "cam0"⟩
      ⟨true, true⟩ ⟨true, false, false, none⟩).1 rfl rfl rfl

/-- C4: camera-list denial, missing cameras, camera-start failure,
network failure and empty results each produce the one-line message of the
source, and none is fatal: after a failed lookup the page still records a
track from the next successful scan, and after a failed start the scanner
still starts under an environment that permits it. -/
theorem failures_surfaced_nonfatal (id id2 t dev : String) (ps : PageState)
    (s : ScannerState) (cnt : Nat) (items : List ItunesItem) (item : ItunesItem)
    (env env2 : StartEnv) :
    (lookupById id FetchResult.err ps).1.status = "Lookup failed"
    ∧ (lookupById id (FetchResult.ok ⟨0, items⟩) ps).1.status = "No results for id: " ++ id
    ∧ (lookupById id (FetchResult.ok ⟨cnt, []⟩) ps).1.status = "No results for id: " ++ id
    ∧ (searchByText t FetchResult.err ps).1.status = "Search failed"
    ∧ (searchByText t (FetchResult.ok ⟨0, items⟩) ps).1.status
        = "No search results for scanned text"
    ∧ (searchByText t (FetchResult.ok ⟨cnt, []⟩) ps).1.status
        = "No search results for scanned text"
    ∧ (initCameras CamerasResult.err s).1.errorMsg
        = "Could not access camera list. Permission denied or browser blocked."
    ∧ (initCameras (CamerasResult.ok []) s).1.errorMsg
        = "No cameras found. Make sure the device has a camera and camera permissions are allowed."
    ∧ (s.scriptLoaded = true → s.scanning = false → startSucceeds env dev = false →
        (startScanner env dev s).1.scanning = false
        ∧ ((startScanner env dev s).1.errorMsg = "Scanner initialization failed."
           ∨ (startScanner env dev s).1.errorMsg
               = "Unable to start camera. Please ensure camera permission is allowed and the site is served over HTTPS (or localhost)."))
    ∧ ((lookupById id2 (FetchResult.ok ⟨cnt + 1, item :: items⟩)
          (lookupById id FetchResult.err ps).1).1.track = some (normalizeItunesItem item))
    ∧ (s.scriptLoaded = true → s.scanning = false → startSucceeds env dev = false →
        startSucceeds env2 dev = true →
        (startScanner env2 dev (startScanner env dev s).1).1.scanning = true) := by
  refine ⟨rfl, ?_, ?_, rfl, ?_, ?_, rfl, rfl, ?_, ?_, ?_⟩
  · simp [lookupById]
  · rcases cnt with _ | n <;> simp [lookupById]
  · simp [searchByText]
  · rcases cnt with _ | n <;> simp [searchByText]
  · intro h1 h2 h3
    exact startScanner_failure env dev s h1 h2 h3
  · simp [lookupById]
  · intro h1 h2 h3 h4
    have hf := (startScanner_failure env dev s h1 h2 h3).1
    have hl := startScanner_scriptLoaded env dev s
    rw [h1] at hl
    rw [startScanner_success env2 dev ((startScanner env dev s).1) hl hf h4]

/-- C4 (witness): a concrete failed lookup shows "Lookup failed" and the
page then records the track of the next successful scan. -/
theorem failures_surfaced_nonfatal_witness :
    (startScanner ⟨true, true, true⟩ "c"
        (startScanner ⟨false, false, false⟩ "c"
          ⟨true, false, false, "", [], "c"⟩).1).1.scanning = true :=
  (failures_surfaced_nonfatal "1" "2" "t" "c" ⟨none, false, ""⟩
      ⟨true, false, false, "", [], "c"⟩ 0 []
      ⟨none, none, none, none, none, none, none, none, none⟩
      ⟨false, false, false⟩ ⟨true, true, true⟩).2.2.2.2.2.2.2.2.2.2 rfl rfl rfl rfl

/-- C5 (counterexample): in the unnamed scanner variant, when no camera is
selected and the facing-mode start fails, the catch block immediately
reissues the very same facing-mode start — an automatic retry of the
failed operation within the same user action. -/
theorem no_auto_retry_cex :
    (startScanner2 ⟨false, false⟩ ⟨true, false, false, none⟩).2
      = [Attempt.camStartFacing, Attempt.camStartFacing, Attempt.camClear]
    ∧ ¬ ((startScanner2 ⟨false, false⟩ ⟨true, false, false, none⟩).2).Nodup := by
  constructor
  · decide
  · decide

/-- C5 (amended): no handler reissues a failed network or camera-list
operation, and the named scanner never repeats a start attempt; the only
automatic repetition in the program is the unnamed variant's single
facing-mode fallback after a failed start, which reuses the facing-mode
constraint when no camera id is selected — every handler trace is
duplicate-free or exactly that one repeated facing-mode pair. -/
theorem no_auto_retry (id t dev : String) (resp : FetchResult) (ps : PageState)
    (cr : CamerasResult) (env : StartEnv) (s : ScannerState)
    (env2 : Start2Env) (s2 : Scanner2State) :
    (lookupById id resp ps).2 = [Attempt.fetchL id]
    ∧ (searchByText t resp ps).2 = [Attempt.fetchS t]
    ∧ ((initCameras cr s).2 = [Attempt.getCams] ∨ (initCameras cr s).2 = [])
    ∧ ((startScanner env dev s).2).Nodup
    ∧ ((stopScanner s).2).Nodup
    ∧ (((startScanner2 env2 s2).2).Nodup
       ∨ (startScanner2 env2 s2).2 = [Attempt.camStartFacing, Attempt.camStartFacing]
       ∨ (startScanner2 env2 s2).2
           = [Attempt.camStartFacing, Attempt.camStartFacing, Attempt.camClear])
    ∧ ((stopScanner2 s2).2).Nodup := by
  refine ⟨rfl, rfl, ?_, ?_, ?_, ?_, ?_⟩
  · rcases cr with _ | _ | ⟨_ | ⟨c, cams⟩⟩ <;> simp [initCameras]
  · rcases env with ⟨co, dso, fso⟩
    by_cases hd : dev = "" <;> cases co <;> cases dso <;> cases fso <;>
      cases hsl : s.scriptLoaded <;> cases hsc : s.scanning <;>
        simp_all [startScanner]
  · rcases s with ⟨sl, sc, ref, em, cams, sel⟩
    cases ref <;> simp [stopScanner]
  · rcases s2 with ⟨lib, sc, ref, cam⟩
    rcases env2 with ⟨so, fo⟩
    cases lib
    · exact Or.inl (by simp [startScanner2])
    · cases sc
      · cases so
        · cases fo
          · rcases cam with _ | cid
            · right
              right
              simp [startScanner2, startAttempt2]
            · by_cases hc : cid = ""
              · right
                right
                simp [startScanner2, startAttempt2, hc]
              · left
                simp [startScanner2, startAttempt2, hc]
          · rcases cam with _ | cid
            · right
              left
              simp [startScanner2, startAttempt2]
            · by_cases hc : cid = ""
              · right
                left
                simp [startScanner2, startAttempt2, hc]
              · left
                simp [startScanner2, startAttempt2, hc]
        · exact Or.inl (by rcases cam with _ | cid <;> simp [startScanner2, startAttempt2])
      · exact Or.inl (by simp [startScanner2])
  · rcases s2 with ⟨lib, sc, ref, cam⟩
    cases ref <;> simp [stopScanner2]

end AppHit
